import Mathlib

/-!
Verification of the goit-algo-hw-05 repository: a log-file analyzer
(task3/task3.py) and a console contact assistant (task4/task4.py).

The Python source is shallowly embedded: Python strings become Lean
`String`s, Python dicts become insertion-ordered association lists,
raised exceptions become `Except PyErr`, and the `try/except` handlers
become explicit `match`es on the `Except` value.
-/

namespace HW05

/-- Exception kinds raised or caught by the two modules. Each carries
the message the Python code constructs it with (`str(e)`). -/
inductive PyErr where
  | valueError (msg : String)
  | keyError (msg : String)
  | indexError (msg : String)
  | fileNotFoundError (msg : String)
  | otherError (msg : String)
deriving DecidableEq, Repr

/-- `str(e)`: the message carried by an exception. -/
def PyErr.message : PyErr → String
  | .valueError m => m
  | .keyError m => m
  | .indexError m => m
  | .fileNotFoundError m => m
  | .otherError m => m

/-- Character-level worker for `pySplit`: walk the characters, growing
the current token in reverse and emitting it at each whitespace run. -/
def pySplitAux : List Char → List Char → List String
  | [], acc => if acc.isEmpty then [] else [⟨acc.reverse⟩]
  | c :: cs, acc =>
    if c.isWhitespace then
      if acc.isEmpty then pySplitAux cs [] else ⟨acc.reverse⟩ :: pySplitAux cs []
    else pySplitAux cs (c :: acc)

/-- Python `str.split()` with no argument: split on runs of whitespace,
discarding empty pieces (so leading/trailing whitespace yields no token). -/
def pySplit (s : String) : List String := pySplitAux s.data []

/-- Python `str.strip()`: remove leading and trailing whitespace. -/
def pyStrip (s : String) : String :=
  ⟨((s.data.dropWhile Char.isWhitespace).reverse.dropWhile Char.isWhitespace).reverse⟩

/-- Python `str.lower()`. -/
def pyLower (s : String) : String := ⟨s.data.map Char.toLower⟩

/-- Python `str.upper()`. -/
def pyUpper (s : String) : String := ⟨s.data.map Char.toUpper⟩

namespace Task3

/-- A parsed log record, as built by `parse_log_line` in task3.py
(the dict with keys date_time, level, text). -/
structure LogRecord where
  date_time : String
  level : String
  text : String
deriving DecidableEq, Repr

/-- task3.py `parse_log_line`:
`date, time, level, *text = line.split()` raises ValueError when fewer
than three tokens are present; otherwise builds the record with
`date + " " + time`, the level verbatim, and `" ".join(text)`. -/
def parse_log_line (line : String) : Except PyErr LogRecord :=
  match pySplit line with
  | date :: time :: level :: text =>
      .ok { date_time := date ++ " " ++ time
            level := level
            text := String.intercalate " " text }
  | _ => .error (.valueError "not enough values to unpack")

/-- The file-system facts task3.py `load_logs` consults about its path:
`path.exists()`, `path.is_file()`, and the raw lines `file.readlines()`
would return. -/
structure FileSys where
  pathExists : Bool
  isFile : Bool
  rawLines : List String

/-- The `try` body of task3.py `load_logs`: raise FileNotFoundError when
the path is missing or not a regular file, else strip and parse every
line, the first parse failure propagating (the `extend` over the
generator runs `parse_log_line` on each line in order). -/
def loadLogsE (fs : FileSys) : Except PyErr (List LogRecord) :=
  if ¬fs.pathExists ∨ ¬fs.isFile then
    .error (.fileNotFoundError "The file does not exist or is not a file.")
  else
    fs.rawLines.mapM (fun line => parse_log_line (pyStrip line))

/-- task3.py `load_logs`: the `try` body with both `except` arms, each of
which prints a diagnostic and returns the empty list. -/
def load_logs (fs : FileSys) : List LogRecord :=
  match loadLogsE fs with
  | .ok parsed => parsed
  | .error _ => []

/-- task3.py `filter_logs_by_level`: start from an empty list and append
each record whose stored level equals `level.upper()`. -/
def filter_logs_by_level (logs : List LogRecord) (level : String) : List LogRecord :=
  logs.foldl (fun filtered_list log =>
    if pyUpper level = log.level then filtered_list ++ [log] else filtered_list) []

/-- One `counted_levels[level] += 1` step on a `Counter` modelled as an
insertion-ordered association list: increment the existing entry in
place, or append a new entry with count 1. -/
def tallyIncr (counts : List (String × Nat)) (k : String) : List (String × Nat) :=
  match counts with
  | [] => [(k, 1)]
  | (k', n) :: rest =>
      if k' = k then (k', n + 1) :: rest else (k', n) :: tallyIncr rest k

/-- Look a level up in the tally; a missing key counts 0 (a `Counter`'s
default). -/
def tallyGet (counts : List (String × Nat)) (k : String) : Nat :=
  match counts with
  | [] => 0
  | (k', n) :: rest => if k' = k then n else tallyGet rest k

/-- task3.py `count_log_by_level`: tally `log.get("level")` over the list
with a `Counter`, returned as an insertion-ordered mapping. -/
def count_log_by_level (logs : List LogRecord) : List (String × Nat) :=
  logs.foldl (fun counted_levels log => tallyIncr counted_levels log.level) []

/-- Spec-side comparison definition: "first-seen" order of the levels of
the input, each level kept once at its first occurrence. -/
def firstSeen (xs : List String) : List String :=
  xs.foldl (fun seen x => if x ∈ seen then seen else seen ++ [x]) []

end Task3

namespace Task4

/-- A Python dict from names to phones: an insertion-ordered association
list with distinct keys maintained by `dictInsert`. -/
abbrev Dict := List (String × String)

/-- `contacts[name]` read / `name in contacts` support. -/
def dictLookup (d : Dict) (k : String) : Option String :=
  match d with
  | [] => none
  | (k', v) :: rest => if k' = k then some v else dictLookup rest k

/-- Python `name in contacts`. -/
def dictContains (d : Dict) (k : String) : Bool :=
  (dictLookup d k).isSome

/-- `contacts[name] = phone`: update the existing entry in place (keeping
its position) or append a new one, as a Python dict does. -/
def dictInsert (d : Dict) (k v : String) : Dict :=
  match d with
  | [] => [(k, v)]
  | (k', v') :: rest =>
      if k' = k then (k', v) :: rest else (k', v') :: dictInsert rest k v

/-- task4.py `input_error`, the message each `except` arm returns. -/
def input_error_msg : PyErr → String
  | .valueError _ => "Give me name and phone please."
  | .keyError _ => "Contact not found, please enter a valid name."
  | .indexError _ => "Too few or too many arguments in your command."
  | e => "An error occurred: " ++ e.message

/-- Body of task4.py `add_contact`: ValueError unless exactly two
arguments; then `contacts[name] = phone`, returning the message and the
updated dict (the mutation made explicit as state passing). -/
def add_contactE (args : List String) (contacts : Dict) : Except PyErr (String × Dict) :=
  match args with
  | [name, phone] => .ok ("Contact added.", dictInsert contacts name phone)
  | _ => .error (.valueError "Name and phone required")

/-- task4.py `add_contact` as wrapped by `@input_error`: a caught
exception becomes its message and leaves the dict unchanged (the body
raises before any mutation). -/
def add_contact (args : List String) (contacts : Dict) : String × Dict :=
  match add_contactE args contacts with
  | .ok r => r
  | .error e => (input_error_msg e, contacts)

/-- Body of task4.py `change_contact`: ValueError unless exactly two
arguments, KeyError when the name is absent, else overwrite the entry. -/
def change_contactE (args : List String) (contacts : Dict) : Except PyErr (String × Dict) :=
  match args with
  | [name, phone] =>
      if ¬dictContains contacts name then .error (.keyError "Contact does not exist")
      else .ok ("Contact changed.", dictInsert contacts name phone)
  | _ => .error (.valueError "Name and phone required")

/-- task4.py `change_contact` as wrapped by `@input_error`. -/
def change_contact (args : List String) (contacts : Dict) : String × Dict :=
  match change_contactE args contacts with
  | .ok r => r
  | .error e => (input_error_msg e, contacts)

/-- Body of task4.py `find_phone`: IndexError on zero arguments, KeyError
when `args[0]` is absent, else return the stored phone. The dict is
passed through untouched: the body contains no assignment to it. -/
def find_phoneE (args : List String) (contacts : Dict) : Except PyErr (String × Dict) :=
  match args with
  | [] => .error (.indexError "Name required")
  | name :: _ =>
      match dictLookup contacts name with
      | none => .error (.keyError "Contact does not exist")
      | some phone => .ok (phone, contacts)

/-- task4.py `find_phone` as wrapped by `@input_error`. -/
def find_phone (args : List String) (contacts : Dict) : String × Dict :=
  match find_phoneE args contacts with
  | .ok r => r
  | .error e => (input_error_msg e, contacts)

/-- task4.py `show_all`: returns the dict itself; no assignment to it, so
the state component is the input dict. -/
def show_all (contacts : Dict) : Dict × Dict := (contacts, contacts)

/-- Python's `repr` of a dict of strings, as `print(show_all(contacts))`
renders it. Only its totality matters to the REPL-safety claim. -/
def reprDict (d : Dict) : String :=
  "\x7b" ++ String.intercalate ", "
    (d.map (fun kv => "\x27" ++ kv.1 ++ "\x27: \x27" ++ kv.2 ++ "\x27")) ++ "\x7d"

/-- task4.py `parse_input`: `cmd, *args = user_input.split()` raises
ValueError on a line with no token; then `cmd.strip().lower()`. -/
def parse_input (user_input : String) : Except PyErr (String × List String) :=
  match pySplit user_input with
  | cmd :: args => .ok (pyLower (pyStrip cmd), args)
  | [] => .error (.valueError "not enough values to unpack")

/-- What one iteration of the task4.py `main` loop produces: the line it
prints, the contacts dict afterwards, and whether it breaks out. -/
structure StepResult where
  output : String
  contacts : Dict
  exit : Bool
deriving DecidableEq, Repr

/-- One iteration of the task4.py REPL: tokenize via `parse_input`
(whose failure is NOT caught in `main` and propagates) and dispatch on
the command word exactly as the `if/elif` chain does. -/
def replStep (user_input : String) (contacts : Dict) : Except PyErr StepResult :=
  match parse_input user_input with
  | .error e => .error e
  | .ok (command, args) =>
    if command = "close" ∨ command = "exit" then
      .ok ⟨"Good bye!", contacts, true⟩
    else if command = "hello" then
      .ok ⟨"How can I help you?", contacts, false⟩
    else if command = "add" then
      let r := add_contact args contacts
      .ok ⟨r.1, r.2, false⟩
    else if command = "change" then
      let r := change_contact args contacts
      .ok ⟨r.1, r.2, false⟩
    else if command = "phone" then
      let r := find_phone args contacts
      .ok ⟨r.1, r.2, false⟩
    else if command = "all" then
      let r := show_all contacts
      .ok ⟨reprDict r.1, r.2, false⟩
    else
      .ok ⟨"Invalid command.", contacts, false⟩

end Task4

end HW05

/-! ## Helper lemmas -/

namespace HW05

namespace Task4

theorem dictLookup_insert (d : Dict) (k v q : String) :
    dictLookup (dictInsert d k v) q = if k = q then some v else dictLookup d q := by
  induction d with
  | nil => by_cases h : k = q <;> simp [dictInsert, dictLookup, h]
  | cons hd tl ih =>
    obtain ⟨k', v'⟩ := hd
    by_cases h1 : k' = k
    · subst h1
      by_cases h2 : k' = q <;> simp [dictInsert, dictLookup, h2]
    · by_cases h2 : k' = q
      · have hkq : ¬k = q := fun h => h1 (h2.trans h.symm)
        have hqk : ¬q = k := fun h => h1 (h2.trans h)
        simp [dictInsert, dictLookup, h1, h2, hkq, hqk]
      · simp [dictInsert, dictLookup, h1, h2, ih]

theorem add_contact_two (name phone : String) (contacts : Dict) :
    add_contact [name, phone] contacts =
      ("Contact added.", dictInsert contacts name phone) := by
  simp [add_contact, add_contactE]

theorem add_contact_bad_args (args : List String) (contacts : Dict)
    (h : args.length ≠ 2) :
    add_contact args contacts = ("Give me name and phone please.", contacts) := by
  rcases args with _ | ⟨a, _ | ⟨b, _ | ⟨c, rest⟩⟩⟩ <;>
    simp_all [add_contact, add_contactE, input_error_msg]

theorem change_contact_bad_args (args : List String) (contacts : Dict)
    (h : args.length ≠ 2) :
    change_contact args contacts = ("Give me name and phone please.", contacts) := by
  rcases args with _ | ⟨a, _ | ⟨b, _ | ⟨c, rest⟩⟩⟩ <;>
    simp_all [change_contact, change_contactE, input_error_msg]

theorem change_contact_absent (name phone : String) (contacts : Dict)
    (h : dictContains contacts name = false) :
    change_contact [name, phone] contacts =
      ("Contact not found, please enter a valid name.", contacts) := by
  simp [change_contact, change_contactE, h, input_error_msg]

theorem change_contact_present (name phone : String) (contacts : Dict)
    (h : dictContains contacts name = true) :
    change_contact [name, phone] contacts =
      ("Contact changed.", dictInsert contacts name phone) := by
  simp [change_contact, change_contactE, h]

theorem find_phone_nil (contacts : Dict) :
    find_phone [] contacts =
      ("Too few or too many arguments in your command.", contacts) := by
  simp [find_phone, find_phoneE, input_error_msg]

theorem find_phone_found (name : String) (rest : List String) (contacts : Dict)
    (phone : String) (h : dictLookup contacts name = some phone) :
    find_phone (name :: rest) contacts = (phone, contacts) := by
  simp [find_phone, find_phoneE, h]

theorem find_phone_absent (name : String) (rest : List String) (contacts : Dict)
    (h : dictLookup contacts name = none) :
    find_phone (name :: rest) contacts =
      ("Contact not found, please enter a valid name.", contacts) := by
  simp [find_phone, find_phoneE, h, input_error_msg]

end Task4

end HW05

/-! ## Contact-assistant claims -/

namespace HW05

namespace Task4

/-- C7: the `input_error` wrapper maps each failure kind of the wrapped
contact operations to its fixed message: a wrong argument count in
`add_contact`/`change_contact` yields "Give me name and phone please.";
a lookup of an absent name yields "Contact not found, please enter a
valid name."; `find_phone` with zero arguments yields "Too few or too
many arguments in your command."; any other failure yields the generic
"An error occurred: <details>" message. -/
theorem input_error_translation :
    (∀ args contacts, args.length ≠ 2 →
      (add_contact args contacts).1 = "Give me name and phone please.")
    ∧ (∀ args contacts, args.length ≠ 2 →
      (change_contact args contacts).1 = "Give me name and phone please.")
    ∧ (∀ name phone contacts, dictContains contacts name = false →
      (change_contact [name, phone] contacts).1 =
        "Contact not found, please enter a valid name.")
    ∧ (∀ name rest contacts, dictContains contacts name = false →
      (find_phone (name :: rest) contacts).1 =
        "Contact not found, please enter a valid name.")
    ∧ (∀ contacts, (find_phone [] contacts).1 =
        "Too few or too many arguments in your command.")
    ∧ (∀ s, input_error_msg (.otherError s) = "An error occurred: " ++ s
        ∧ input_error_msg (.fileNotFoundError s) = "An error occurred: " ++ s) := by
  refine ⟨?_, ?_, ?_, ?_, ?_, ?_⟩
  · intro args contacts h; rw [add_contact_bad_args args contacts h]
  · intro args contacts h; rw [change_contact_bad_args args contacts h]
  · intro name phone contacts h; rw [change_contact_absent name phone contacts h]
  · intro name rest contacts h
    have hl : dictLookup contacts name = none := by
      simpa [dictContains, Option.isSome_iff_exists] using h
    rw [find_phone_absent name rest contacts hl]
  · intro contacts; rw [find_phone_nil contacts]
  · intro s; exact ⟨rfl, rfl⟩

/-- Closed instances of `input_error_translation` at concrete inputs. -/
theorem input_error_translation_instances :
    (add_contact ["A"] []).1 = "Give me name and phone please."
    ∧ (change_contact ["A"] []).1 = "Give me name and phone please."
    ∧ (change_contact ["A", "2"] []).1 =
        "Contact not found, please enter a valid name."
    ∧ (find_phone ["A"] []).1 = "Contact not found, please enter a valid name."
    ∧ (find_phone [] [("A", "1")]).1 =
        "Too few or too many arguments in your command."
    ∧ input_error_msg (.otherError "boom") = "An error occurred: boom" := by
  obtain ⟨h1, h2, h3, h4, h5, h6⟩ := input_error_translation
  exact ⟨h1 ["A"] [] (by decide), h2 ["A"] [] (by decide),
    h3 "A" "2" [] (by decide), h4 "A" [] [] (by decide),
    h5 [("A", "1")], (h6 "boom").1⟩

/-- C8: `change_contact` on a name absent from the mapping returns the
not-found message and leaves the mapping unchanged; with exactly two
arguments and a present name it overwrites that name's number (the
stored value becomes the new phone) and reports success. -/
theorem change_contact_absent_vs_present :
    ∀ contacts name phone,
      (dictContains contacts name = false →
        change_contact [name, phone] contacts =
          ("Contact not found, please enter a valid name.", contacts))
      ∧ (dictContains contacts name = true →
        change_contact [name, phone] contacts =
          ("Contact changed.", dictInsert contacts name phone)
        ∧ dictLookup (change_contact [name, phone] contacts).2 name = some phone) := by
  intro contacts name phone
  constructor
  · intro h; exact change_contact_absent name phone contacts h
  · intro h
    refine ⟨change_contact_present name phone contacts h, ?_⟩
    rw [change_contact_present name phone contacts h]
    simp [dictLookup_insert]

/-- Closed instance of `change_contact_absent_vs_present`. -/
theorem change_contact_absent_vs_present_instance :
    change_contact ["A", "2"] [] =
      ("Contact not found, please enter a valid name.", [])
    ∧ change_contact ["A", "2"] [("A", "1")] = ("Contact changed.", [("A", "2")]) := by
  obtain ⟨ha, hp⟩ := change_contact_absent_vs_present [] "A" "2"
  obtain ⟨ha', hp'⟩ := change_contact_absent_vs_present [("A", "1")] "A" "2"
  refine ⟨ha (by decide), ?_⟩
  have := (hp' (by decide)).1
  simpa [dictInsert] using this

/-- C9: round-trip — `add_contact [name, phone]` stores name ↦ phone and
returns "Contact added.", and `find_phone [name]` then returns that
phone; after a successful `change_contact [name, phone2]`, `find_phone
[name]` returns phone2. -/
theorem add_change_find_round_trip :
    ∀ contacts name phone phone2,
      (add_contact [name, phone] contacts).1 = "Contact added."
      ∧ dictLookup (add_contact [name, phone] contacts).2 name = some phone
      ∧ (find_phone [name] (add_contact [name, phone] contacts).2).1 = phone
      ∧ ((change_contact [name, phone2] contacts).1 = "Contact changed." →
          (find_phone [name] (change_contact [name, phone2] contacts).2).1 = phone2) := by
  intro contacts name phone phone2
  have hadd := add_contact_two name phone contacts
  have hlook : dictLookup (add_contact [name, phone] contacts).2 name = some phone := by
    rw [hadd]; simp [dictLookup_insert]
  refine ⟨by rw [hadd], hlook, ?_, ?_⟩
  · rw [find_phone_found name [] _ phone hlook]
  · intro hsucc
    by_cases h : dictContains contacts name = true
    · rw [change_contact_present name phone2 contacts h]
      have : dictLookup (dictInsert contacts name phone2) name = some phone2 := by
        simp [dictLookup_insert]
      rw [find_phone_found name [] _ phone2 this]
    · rw [change_contact_absent name phone2 contacts (by simpa using h)] at hsucc
      simp at hsucc

/-- Closed instance of `add_change_find_round_trip`. -/
theorem add_change_find_round_trip_instance :
    (add_contact ["A", "1"] []).2 = [("A", "1")]
    ∧ (add_contact ["A", "1"] []).1 = "Contact added."
    ∧ (find_phone ["A"] (add_contact ["A", "1"] []).2).1 = "1"
    ∧ (find_phone ["A"] (change_contact ["A", "2"] [("A", "1")]).2).1 = "2" := by
  obtain ⟨h1, _, h3, _⟩ := add_change_find_round_trip [] "A" "1" "2"
  obtain ⟨_, _, _, h4⟩ := add_change_find_round_trip [("A", "1")] "A" "1" "2"
  exact ⟨by decide, h1, h3, h4 (by decide)⟩

/-- C10 (frame property): `add_contact` and `change_contact` touch at
most the entry of the name they are given — every other key keeps its
value (so no other key is added or removed) and a wrong argument count
leaves the mapping untouched — while `find_phone` and `show_all` never
modify the mapping at all. -/
theorem contacts_frame :
    ∀ contacts k,
      (∀ name phone, k ≠ name →
        dictLookup (add_contact [name, phone] contacts).2 k = dictLookup contacts k
        ∧ dictLookup (change_contact [name, phone] contacts).2 k = dictLookup contacts k)
      ∧ (∀ args, args.length ≠ 2 →
        (add_contact args contacts).2 = contacts
        ∧ (change_contact args contacts).2 = contacts)
      ∧ (∀ args, (find_phone args contacts).2 = contacts)
      ∧ (show_all contacts).2 = contacts := by
  intro contacts k
  refine ⟨?_, ?_, ?_, rfl⟩
  · intro name phone hk
    have hne : ¬name = k := fun h => hk h.symm
    constructor
    · rw [add_contact_two name phone contacts]
      simp [dictLookup_insert, hne]
    · by_cases h : dictContains contacts name = true
      · rw [change_contact_present name phone contacts h]
        simp [dictLookup_insert, hne]
      · rw [change_contact_absent name phone contacts (by simpa using h)]
  · intro args h
    exact ⟨by rw [add_contact_bad_args args contacts h],
      by rw [change_contact_bad_args args contacts h]⟩
  · intro args
    rcases args with _ | ⟨name, rest⟩
    · rw [find_phone_nil contacts]
    · rcases hl : dictLookup contacts name with _ | phone
      · rw [find_phone_absent name rest contacts hl]
      · rw [find_phone_found name rest contacts phone hl]

/-- Closed instance of `contacts_frame`. -/
theorem contacts_frame_instance :
    dictLookup (add_contact ["A", "1"] [("B", "7")]).2 "B" = some "7"
    ∧ dictLookup (change_contact ["B", "9"] [("B", "7")]).2 "A" = none
    ∧ (add_contact ["A"] [("B", "7")]).2 = [("B", "7")]
    ∧ (find_phone ["B"] [("B", "7")]).2 = [("B", "7")]
    ∧ (show_all [("B", "7")]).2 = [("B", "7")] := by
  obtain ⟨hmod, hbad, hfind, hshow⟩ := contacts_frame [("B", "7")] "B"
  obtain ⟨hmodA, _, _, _⟩ := contacts_frame [("B", "7")] "A"
  refine ⟨?_, ?_, (hbad ["A"] (by decide)).1, hfind ["B"], hshow⟩
  · rw [(hmod "A" "1" (by decide)).1]; decide
  · rw [(hmodA "B" "9" (by decide)).2]; decide

end Task4

end HW05

/-! ## REPL iteration claims -/

namespace HW05

namespace Task4

/-- C1 as stated is false: on a blank input line one REPL iteration
raises — `parse_input` unpacks `cmd, *args` from an empty token list,
which raises a ValueError that `main` does not catch. -/
theorem repl_step_blank_line_raises :
    replStep "" [] = .error (.valueError "not enough values to unpack") := by rfl

/-- C1 (amended): for every input line containing at least one
whitespace-separated token, one iteration of the REPL (tokenizing via
`parse_input` and dispatching on the command word) completes without
raising: every handler it dispatches to is wrapped to return a message
rather than raise. -/
theorem repl_step_total_on_nonblank :
    ∀ (input : String) (contacts : Dict),
      pySplit input ≠ [] → (replStep input contacts).isOk = true := by
  intro input contacts h
  rcases hs : pySplit input with _ | ⟨cmd, args⟩
  · exact absurd hs h
  · have hp : parse_input input = .ok (pyLower (pyStrip cmd), args) := by
      unfold parse_input; rw [hs]
    unfold replStep
    rw [hp]
    dsimp only
    repeat' split
    all_goals rfl

/-- Closed instance of `repl_step_total_on_nonblank`. -/
theorem repl_step_total_on_nonblank_instance :
    (replStep "hello" []).isOk = true := by
  exact repl_step_total_on_nonblank "hello" [] (by decide)

end Task4

end HW05

/-! ## Log-analyzer helper lemmas -/

namespace HW05

namespace Task3

theorem parse_log_line_ok (line date time level : String) (rest : List String)
    (h : pySplit line = date :: time :: level :: rest) :
    parse_log_line line =
      .ok ⟨date ++ " " ++ time, level, String.intercalate " " rest⟩ := by
  unfold parse_log_line
  rw [h]

theorem parse_log_line_short (line : String)
    (h : (pySplit line).length < 3) :
    parse_log_line line = .error (.valueError "not enough values to unpack") := by
  unfold parse_log_line
  rcases hs : pySplit line with _ | ⟨a, _ | ⟨b, _ | ⟨c, rest⟩⟩⟩
  · rfl
  · rfl
  · rfl
  · rw [hs] at h
    simp at h
    omega

theorem mapM_except_error {α β : Type} (f : α → Except PyErr β) :
    ∀ l : List α, (∃ x ∈ l, ∃ e, f x = .error e) →
      ∃ e, l.mapM f = .error e := by
  intro l
  induction l with
  | nil =>
    rintro ⟨x, hx, _⟩
    cases hx
  | cons a as ih =>
    rintro ⟨x, hx, e, he⟩
    rw [List.mapM_cons]
    rcases List.mem_cons.mp hx with rfl | hmem
    · rw [he]
      exact ⟨e, rfl⟩
    · rcases hf : f a with e' | b
      · exact ⟨e', rfl⟩
      · rcases ih ⟨x, hmem, e, he⟩ with ⟨e', he'⟩
        rw [he']
        exact ⟨e', rfl⟩

theorem foldl_append_if {α : Type} (p : α → Prop) [DecidablePred p] :
    ∀ l acc : List α,
      l.foldl (fun a x => if p x then a ++ [x] else a) acc
        = acc ++ l.filter (fun x => decide (p x)) := by
  intro l
  induction l with
  | nil => intro acc; simp
  | cons x xs ih =>
    intro acc
    by_cases h : p x <;> simp [List.foldl_cons, List.filter_cons, h, ih]

theorem tallyGet_incr (c : List (String × Nat)) (k q : String) :
    tallyGet (tallyIncr c k) q = if k = q then tallyGet c q + 1 else tallyGet c q := by
  induction c with
  | nil => by_cases h : k = q <;> simp [tallyIncr, tallyGet, h]
  | cons hd tl ih =>
    obtain ⟨k', n⟩ := hd
    by_cases h1 : k' = k
    · subst h1
      by_cases h2 : k' = q <;> simp [tallyIncr, tallyGet, h2]
    · by_cases h2 : k' = q
      · have hkq : ¬k = q := fun h => h1 (h2.trans h.symm)
        have hqk : ¬q = k := fun h => h1 (h2.trans h)
        simp [tallyIncr, tallyGet, h1, h2, hkq, hqk]
      · simp [tallyIncr, tallyGet, h1, h2, ih]

theorem tallyIncr_keys (c : List (String × Nat)) (k : String) :
    (tallyIncr c k).map Prod.fst =
      if k ∈ c.map Prod.fst then c.map Prod.fst else c.map Prod.fst ++ [k] := by
  induction c with
  | nil => simp [tallyIncr]
  | cons hd tl ih =>
    obtain ⟨k', n⟩ := hd
    by_cases h : k' = k
    · subst h
      simp [tallyIncr]
    · have hne : ¬k = k' := fun hk => h hk.symm
      by_cases hm : k ∈ tl.map Prod.fst <;>
        simp [tallyIncr, h, ih, hm, hne]

theorem tallyIncr_sum (c : List (String × Nat)) (k : String) :
    ((tallyIncr c k).map Prod.snd).sum = (c.map Prod.snd).sum + 1 := by
  induction c with
  | nil => simp [tallyIncr]
  | cons hd tl ih =>
    obtain ⟨k', n⟩ := hd
    by_cases h : k' = k <;> simp [tallyIncr, h, ih] <;> omega

theorem count_foldl_get (logs : List LogRecord) :
    ∀ (acc : List (String × Nat)) (k : String),
      tallyGet (logs.foldl (fun a log => tallyIncr a log.level) acc) k
        = tallyGet acc k + logs.countP (fun r => decide (r.level = k)) := by
  induction logs with
  | nil => intro acc k; simp
  | cons r rs ih =>
    intro acc k
    simp only [List.foldl_cons]
    rw [ih, tallyGet_incr, List.countP_cons]
    by_cases h : r.level = k
    · simp [h]
      omega
    · simp [h]

theorem count_foldl_keys (logs : List LogRecord) :
    ∀ acc : List (String × Nat),
      (logs.foldl (fun a log => tallyIncr a log.level) acc).map Prod.fst
        = (logs.map (fun r => r.level)).foldl
            (fun seen x => if x ∈ seen then seen else seen ++ [x])
            (acc.map Prod.fst) := by
  induction logs with
  | nil => intro acc; simp
  | cons r rs ih =>
    intro acc
    simp only [List.foldl_cons, List.map_cons]
    rw [ih, tallyIncr_keys]

theorem count_foldl_sum (logs : List LogRecord) :
    ∀ acc : List (String × Nat),
      ((logs.foldl (fun a log => tallyIncr a log.level) acc).map Prod.snd).sum
        = (acc.map Prod.snd).sum + logs.length := by
  induction logs with
  | nil => intro acc; simp
  | cons r rs ih =>
    intro acc
    simp only [List.foldl_cons]
    rw [ih, tallyIncr_sum]
    simp only [List.length_cons]
    omega

theorem count_foldl_uniform (lvl : String) :
    ∀ (logs : List LogRecord) (n : Nat), (∀ r ∈ logs, r.level = lvl) →
      logs.foldl (fun a log => tallyIncr a log.level) [(lvl, n)]
        = [(lvl, n + logs.length)] := by
  intro logs
  induction logs with
  | nil => intro n _; simp
  | cons r rs ih =>
    intro n hall
    have hr : r.level = lvl := hall r (List.mem_cons_self r rs)
    have hstep : tallyIncr [(lvl, n)] r.level = [(lvl, n + 1)] := by
      simp [tallyIncr, hr]
    simp only [List.foldl_cons]
    rw [hstep, ih (n + 1) (fun x hx => hall x (List.mem_cons_of_mem r hx))]
    have : n + 1 + rs.length = n + (r :: rs).length := by
      simp only [List.length_cons]
      omega
    rw [this]

end Task3

end HW05

/-! ## Log-analyzer claims -/

namespace HW05

namespace Task3

/-- C3: on every line with at least four whitespace tokens,
`parse_log_line` returns the record whose date_time is the first two
tokens joined by a single space, whose level is the third token verbatim,
and whose text is all remaining tokens rejoined with single spaces,
dropping no message word. -/
theorem parse_log_line_well_formed :
    ∀ (line date time level w : String) (rest : List String),
      pySplit line = date :: time :: level :: w :: rest →
      parse_log_line line =
        .ok { date_time := date ++ " " ++ time
              level := level
              text := String.intercalate " " (w :: rest) } := by
  intro line date time level w rest h
  exact parse_log_line_ok line date time level (w :: rest) h

/-- Closed instance of `parse_log_line_well_formed`. -/
theorem parse_log_line_well_formed_instance :
    parse_log_line "2024-01-22 08:30:01 INFO User logged in" =
      .ok { date_time := "2024-01-22 08:30:01", level := "INFO",
            text := "User logged in" } := by
  have h := parse_log_line_well_formed "2024-01-22 08:30:01 INFO User logged in"
    "2024-01-22" "08:30:01" "INFO" "User" ["logged", "in"] (by rfl)
  rw [h]
  rfl

/-- C2: a file that exists and is a regular file but contains at least
one line with fewer than three whitespace tokens makes `load_logs`
return the empty list — the per-line unpacking failure is not caught per
line, it aborts the whole load under the generic handler. -/
theorem load_logs_malformed_line :
    ∀ fs : FileSys, fs.pathExists = true → fs.isFile = true →
      (∃ l ∈ fs.rawLines, (pySplit (pyStrip l)).length < 3) →
      load_logs fs = [] := by
  intro fs h1 h2 hbad
  obtain ⟨l, hl, hlen⟩ := hbad
  have herr : ∃ e, loadLogsE fs = .error e := by
    unfold loadLogsE
    rw [h1, h2]
    simp only [not_true, or_self, if_false]
    exact mapM_except_error _ fs.rawLines
      ⟨l, hl, _, parse_log_line_short _ hlen⟩
  obtain ⟨e, he⟩ := herr
  unfold load_logs
  rw [he]

/-- Closed instance of `load_logs_malformed_line`. -/
theorem load_logs_malformed_line_instance :
    load_logs ⟨true, true, ["2024-01-22 08:30:01 INFO ok", "bad line"]⟩ = [] := by
  exact load_logs_malformed_line ⟨true, true, ["2024-01-22 08:30:01 INFO ok", "bad line"]⟩
    rfl rfl ⟨"bad line", by decide, by decide⟩

/-- C4: `load_logs` never raises to its caller: a missing or non-regular
path yields the empty list, any exception from the `try` body yields the
empty list, and in every case the result is either the empty list or the
successfully parsed records. -/
theorem load_logs_never_raises :
    ∀ fs : FileSys,
      ((fs.pathExists = false ∨ fs.isFile = false) → load_logs fs = [])
      ∧ (∀ e, loadLogsE fs = .error e → load_logs fs = [])
      ∧ (load_logs fs = [] ∨ loadLogsE fs = .ok (load_logs fs)) := by
  intro fs
  refine ⟨?_, ?_, ?_⟩
  · intro h
    have herr : loadLogsE fs =
        .error (.fileNotFoundError "The file does not exist or is not a file.") := by
      unfold loadLogsE
      rcases h with h | h <;> simp [h]
    unfold load_logs
    rw [herr]
  · intro e he
    unfold load_logs
    rw [he]
  · unfold load_logs
    rcases he : loadLogsE fs with e | parsed
    · exact Or.inl rfl
    · exact Or.inr rfl

/-- Closed instance of `load_logs_never_raises`. -/
theorem load_logs_never_raises_instance :
    load_logs ⟨false, true, []⟩ = [] := by
  obtain ⟨h1, _, _⟩ := load_logs_never_raises ⟨false, true, []⟩
  exact h1 (Or.inl rfl)

/-- C5: `filter_logs_by_level` returns exactly the records whose stored
level equals the uppercased filter, in their original order (a sublist
of the unchanged input), and a filter with zero matches returns the
empty list. -/
theorem filter_logs_spec :
    ∀ (logs : List LogRecord) (level : String),
      filter_logs_by_level logs level
          = logs.filter (fun r => decide (pyUpper level = r.level))
      ∧ List.Sublist (filter_logs_by_level logs level) logs
      ∧ ((∀ r ∈ logs, r.level ≠ pyUpper level) →
          filter_logs_by_level logs level = []) := by
  intro logs level
  have he : filter_logs_by_level logs level
      = logs.filter (fun r => decide (pyUpper level = r.level)) := by
    unfold filter_logs_by_level
    simpa using foldl_append_if (fun r => pyUpper level = r.level) logs []
  refine ⟨he, ?_, ?_⟩
  · rw [he]
    exact List.filter_sublist _
  · intro hnone
    rw [he]
    apply List.filter_eq_nil_iff.mpr
    intro r hr
    simpa using fun h => hnone r hr h.symm

/-- Closed instance of `filter_logs_spec`. -/
theorem filter_logs_spec_instance :
    filter_logs_by_level
        [⟨"a b", "INFO", "x"⟩, ⟨"c d", "ERROR", "y"⟩] "info"
      = [⟨"a b", "INFO", "x"⟩]
    ∧ filter_logs_by_level [⟨"a b", "INFO", "x"⟩] "debug" = [] := by
  obtain ⟨h1, _, _⟩ :=
    filter_logs_spec [⟨"a b", "INFO", "x"⟩, ⟨"c d", "ERROR", "y"⟩] "info"
  obtain ⟨_, _, h3⟩ := filter_logs_spec [⟨"a b", "INFO", "x"⟩] "debug"
  constructor
  · rw [h1]
    rfl
  · exact h3 (by decide)

/-- C6: `count_log_by_level` maps each level string (no normalization)
to the number of records carrying it, counts every record exactly once
(the counts sum to the list length), lists its keys in first-seen order,
returns the empty mapping on the empty list, and returns `[(level, N)]`
on N records all of the same level. -/
theorem count_log_by_level_spec :
    ∀ logs : List LogRecord,
      (∀ k, tallyGet (count_log_by_level logs) k
          = logs.countP (fun r => decide (r.level = k)))
      ∧ (count_log_by_level logs).map Prod.fst
          = firstSeen (logs.map (fun r => r.level))
      ∧ ((count_log_by_level logs).map Prod.snd).sum = logs.length
      ∧ count_log_by_level ([] : List LogRecord) = []
      ∧ (∀ lvl, logs ≠ [] → (∀ r ∈ logs, r.level = lvl) →
          count_log_by_level logs = [(lvl, logs.length)]) := by
  intro logs
  refine ⟨?_, ?_, ?_, rfl, ?_⟩
  · intro k
    unfold count_log_by_level
    rw [count_foldl_get]
    simp [tallyGet]
  · unfold count_log_by_level firstSeen
    rw [count_foldl_keys]
    simp
  · unfold count_log_by_level
    rw [count_foldl_sum]
    simp
  · intro lvl hne hall
    rcases logs with _ | ⟨r, rs⟩
    · exact absurd rfl hne
    · unfold count_log_by_level
      simp only [List.foldl_cons]
      have hr : r.level = lvl := hall r (List.mem_cons_self r rs)
      have h0 : tallyIncr [] r.level = [(lvl, 1)] := by
        simp [tallyIncr, hr]
      rw [h0, count_foldl_uniform lvl rs 1
        (fun x hx => hall x (List.mem_cons_of_mem r hx))]
      simp only [List.length_cons]
      rw [Nat.add_comm]

/-- Closed instance of `count_log_by_level_spec`. -/
theorem count_log_by_level_spec_instance :
    tallyGet (count_log_by_level
        [⟨"a", "INFO", "x"⟩, ⟨"b", "ERROR", "y"⟩, ⟨"c", "INFO", "z"⟩]) "INFO" = 2
    ∧ count_log_by_level [⟨"a", "INFO", "x"⟩, ⟨"b", "INFO", "y"⟩] = [("INFO", 2)] := by
  obtain ⟨h1, _, _, _, _⟩ := count_log_by_level_spec
    [⟨"a", "INFO", "x"⟩, ⟨"b", "ERROR", "y"⟩, ⟨"c", "INFO", "z"⟩]
  obtain ⟨_, _, _, _, h5⟩ := count_log_by_level_spec
    [⟨"a", "INFO", "x"⟩, ⟨"b", "INFO", "y"⟩]
  constructor
  · rw [h1 "INFO"]
    decide
  · simpa using h5 "INFO" (by decide) (by decide)

end Task3

end HW05
